import Mathlib

/-!
Verification development for the sortpics-go file-organization pipeline.

The Go source is shallowly embedded:
* `path/filepath` helpers are modelled on clean slash-separated paths
  (no trailing slashes, no `..` segments), which is the domain the
  pipeline feeds them.
* The filesystem is a map from paths to file data; SHA-256 is an
  abstract parameter `hash : List Nat → String` of the functions that
  use it (the code only ever compares hash strings for equality).
* Fallible Go functions returning `(T, error)` become `Except String T`.
* The read-only character of the duplicate detector is captured by
  trace functions that list, in order, the filesystem primitives each
  Go function invokes.
-/

namespace SortPics

/-- Decidable equality of `Except` results, for evaluating concrete runs. -/
instance {ε α : Type} [DecidableEq ε] [DecidableEq α] : DecidableEq (Except ε α) := fun x y =>
  match x, y with
  | .ok a, .ok b =>
    if h : a = b then isTrue (by rw [h]) else isFalse (by intro hc; cases hc; exact h rfl)
  | .error a, .error b =>
    if h : a = b then isTrue (by rw [h]) else isFalse (by intro hc; cases hc; exact h rfl)
  | .ok _, .error _ => isFalse (by intro hc; cases hc)
  | .error _, .ok _ => isFalse (by intro hc; cases hc)

/-! ## Decimal rendering (Go `fmt.Sprintf` with `%d` / zero padding) -/

def digitChar (n : Nat) : Char := Char.ofNat (48 + n)

/-- Decimal digits of `n`, least significant first.  The first argument is
structural fuel; `n + 1` is always enough since `n / 10` strictly decreases. -/
def digitsAux : Nat → Nat → List Char
  | 0, _ => []
  | fuel + 1, n =>
    if n < 10 then [digitChar n]
    else digitChar (n % 10) :: digitsAux fuel (n / 10)

/-- Go `fmt.Sprintf` of a non-negative integer with the `%d` verb. -/
def sprintfD (n : Nat) : String := String.mk (digitsAux (n + 1) n).reverse

/-- Go `fmt.Sprintf` with a zero-padded width verb such as `%02d`, `%04d`,
`%06d`: minimum-width decimal, left-padded with zeros. -/
def padNum (width n : Nat) : String :=
  String.mk (List.replicate (width - (sprintfD n).length) '0') ++ sprintfD n

/-- Go `strings.ToLower` (the pipeline only passes ASCII extensions). -/
def strToLower (s : String) : String := String.mk (s.data.map Char.toLower)

/-- Go `strings.Repeat(s, n)` specialised to one-character strings. -/
def repeatChar (c : Char) (n : Nat) : String := String.mk (List.replicate n c)

/-! ## `path/filepath` on clean slash-separated paths -/

/-- Split a list around the LAST occurrence of `c`: returns
`(before, after)` with the occurrence removed, or `none` when `c` does
not occur. -/
def splitLast (c : Char) : List Char → Option (List Char × List Char)
  | [] => none
  | x :: xs =>
    match splitLast c xs with
    | some (b, a) => some (x :: b, a)
    | none => if x = c then some ([], xs) else none

/-- Go `filepath.Base` for clean paths without trailing separator. -/
def filepathBase (s : String) : String :=
  match splitLast '/' s.data with
  | none => if s = "" then "." else s
  | some (_, a) => String.mk a

/-- Go `filepath.Dir` for clean paths without trailing separator. -/
def filepathDir (s : String) : String :=
  match splitLast '/' s.data with
  | none => "."
  | some (b, _) => if b = [] then "/" else String.mk b

/-- Go `filepath.Ext`: the suffix starting at the final dot of the final
path element (empty when that element has no dot). -/
def filepathExt (s : String) : String :=
  match splitLast '.' (filepathBase s).data with
  | none => ""
  | some (_, a) => String.mk ('.' :: a)

/-- Go `strings.TrimSuffix`. -/
def trimSuffix (s suf : String) : String :=
  if suf.data.isSuffixOf s.data then
    String.mk (s.data.take (s.data.length - suf.data.length))
  else s

/-- Go `filepath.Join(dir, name)` for a clean `dir` and a relative
`name`, as produced by the pipeline. -/
def filepathJoin (dir name : String) : String :=
  if dir = "" then name
  else if dir = "." then name
  else if dir = "/" then "/" ++ name
  else dir ++ "/" ++ name

/-! ## Package `duplicate` (src/unnamed/part_010) -/

/-- Content and permission bits of one file on disk. -/
structure FileData where
  content : List Nat
  perm : Nat
  deriving DecidableEq, Repr

/-- The file namespace: a map from path to file data (`none` = no file). -/
abbrev Fs := String → Option FileData

/-- `addIncrement` adds an increment suffix to a filename before the
extension: `addIncrement "/path/file.jpg" 1 = "/path/file_1.jpg"`. -/
def addIncrement (path : String) (increment : Nat) : String :=
  let dir := filepathDir path
  let base := filepathBase path
  let ext := filepathExt base
  let stem := trimSuffix base ext
  let newStem := stem ++ "_" ++ sprintfD increment
  filepathJoin dir (newStem ++ ext)

/-- `Detector.CalculateSHA256`: hash a file, but if an `_original`
sidecar backup exists (left behind by exiftool), hash that instead. -/
def CalculateSHA256 (hash : List Nat → String) (fs : Fs) (filePath : String) :
    Except String String :=
  let originalPath := filePath ++ "_original"
  let hashPath := if (fs originalPath).isSome then originalPath else filePath
  match fs hashPath with
  | none => .error "failed to open file for hashing"
  | some fd => .ok (hash fd.content)

/-- The `for` loop of `Detector.ResolveCollision`.  `fuel` mirrors the
`increment > 1000` guard: the Go loop probes increments
`increment, increment+1, …, 1000` and then fails, so a call at
increment `i` carries fuel `1000 - i` and the fuel-0 mismatch arm is the
`too many collisions` abort. -/
def resolveLoop (hash : List Nat → String) (fs : Fs) (sourceHash : String)
    (initialPath : String) (increment : Nat) (fuel : Nat) :
    Except String (String × Option String) :=
  let currentPath := addIncrement initialPath increment
  if fs currentPath = none then
    .ok (currentPath, some sourceHash)
  else
    match CalculateSHA256 hash fs currentPath with
    | .error e => .error ("failed to hash collision path: " ++ e)
    | .ok destHash =>
      if sourceHash = destHash then
        .ok (currentPath, some sourceHash)
      else
        match fuel with
        | 0 => .error ("too many collisions for " ++ initialPath)
        | fuel' + 1 =>
          resolveLoop hash fs sourceHash initialPath (increment + 1) fuel'

/-- `Detector.ResolveCollision`: returns the resolved path and the source
hash (`none` when no collision occurred). -/
def ResolveCollision (hash : List Nat → String) (fs : Fs)
    (source initialPath : String) : Except String (String × Option String) :=
  if fs initialPath = none then
    .ok (initialPath, none)
  else
    match CalculateSHA256 hash fs source with
    | .error e => .error ("failed to hash source: " ++ e)
    | .ok sourceHash =>
      match CalculateSHA256 hash fs initialPath with
      | .error e => .error ("failed to hash initial destination: " ++ e)
      | .ok destHash =>
        if sourceHash = destHash then
          .ok (initialPath, some sourceHash)
        else
          resolveLoop hash fs sourceHash initialPath 1 999

/-- `Detector.CheckAndResolve`: final destination plus duplicate flag. -/
def CheckAndResolve (hash : List Nat → String) (fs : Fs)
    (source initialDestination : String) : Except String (String × Bool) :=
  match ResolveCollision hash fs source initialDestination with
  | .error e => .error e
  | .ok (finalPath, sourceHash?) =>
    match sourceHash? with
    | none => .ok (finalPath, false)
    | some sh =>
      if (fs finalPath).isSome then
        match CalculateSHA256 hash fs finalPath with
        | .error e => .error ("failed to verify duplicate: " ++ e)
        | .ok destHash => .ok (finalPath, decide (sh = destHash))
      else
        .ok (finalPath, false)

/-- Outcome of `processFile` (src/cmd/sortpics/cmd/root.go) after
metadata and collision resolution: duplicates are skipped before
`Perform` is ever called. -/
inductive ProcessOutcome where
  | skippedDuplicate
  | performed (destination : String)
  | failed (e : String)
  deriving DecidableEq, Repr

/-- The duplicate gate of `processFile`: resolve, then skip duplicates
without transferring; otherwise hand the resolved path to `Perform`. -/
def processFileDecision (hash : List Nat → String) (fs : Fs)
    (source initialDestination : String) : ProcessOutcome :=
  match CheckAndResolve hash fs source initialDestination with
  | .error e => .failed e
  | .ok (finalPath, isDup) =>
    if isDup then .skippedDuplicate else .performed finalPath

/-! ## Effect traces of the duplicate detector

Each Go function in package `duplicate` calls only `os.Stat` and
`os.Open`/`Read` (for hashing).  The trace functions below list, in
call order, the filesystem primitives the corresponding Go function
invokes, so that the read-only frame property is a statement about the
recorded effects rather than true by construction of the state type. -/

/-- One filesystem primitive as invoked by the Go code. -/
inductive FsEff where
  | statE (p : String)
  | openReadE (p : String)
  | mkdirAllE (p : String)
  | createTempE (dir p : String)
  | writeFileE (p : String)
  | chmodE (p : String) (perm : Nat)
  | renameE (src dst : String)
  | removeE (p : String)
  deriving DecidableEq, Repr

/-- A primitive that only reads the filesystem. -/
def FsEff.readOnly : FsEff → Bool
  | .statE _ => true
  | .openReadE _ => true
  | _ => false

/-- Primitives invoked by `CalculateSHA256`: a stat probe for the
`_original` sidecar, then an open-and-read of the chosen path. -/
def CalculateSHA256Trace (fs : Fs) (filePath : String) : List FsEff :=
  let originalPath := filePath ++ "_original"
  let hashPath := if (fs originalPath).isSome then originalPath else filePath
  [.statE originalPath, .openReadE hashPath]

/-- Primitives invoked by the probe loop of `ResolveCollision`. -/
def resolveLoopTrace (hash : List Nat → String) (fs : Fs) (sourceHash : String)
    (initialPath : String) (increment : Nat) (fuel : Nat) : List FsEff :=
  let currentPath := addIncrement initialPath increment
  if fs currentPath = none then
    [.statE currentPath]
  else
    let tr := FsEff.statE currentPath :: CalculateSHA256Trace fs currentPath
    match CalculateSHA256 hash fs currentPath with
    | .error _ => tr
    | .ok destHash =>
      if sourceHash = destHash then tr
      else
        match fuel with
        | 0 => tr
        | fuel' + 1 =>
          tr ++ resolveLoopTrace hash fs sourceHash initialPath (increment + 1) fuel'

/-- Primitives invoked by `ResolveCollision`. -/
def ResolveCollisionTrace (hash : List Nat → String) (fs : Fs)
    (source initialPath : String) : List FsEff :=
  if fs initialPath = none then
    [.statE initialPath]
  else
    let tr₀ := FsEff.statE initialPath :: CalculateSHA256Trace fs source
    match CalculateSHA256 hash fs source with
    | .error _ => tr₀
    | .ok sourceHash =>
      let tr₁ := tr₀ ++ CalculateSHA256Trace fs initialPath
      match CalculateSHA256 hash fs initialPath with
      | .error _ => tr₁
      | .ok destHash =>
        if sourceHash = destHash then tr₁
        else tr₁ ++ resolveLoopTrace hash fs sourceHash initialPath 1 999

/-- Primitives invoked by `CheckAndResolve`. -/
def CheckAndResolveTrace (hash : List Nat → String) (fs : Fs)
    (source initialDestination : String) : List FsEff :=
  let tr := ResolveCollisionTrace hash fs source initialDestination
  match ResolveCollision hash fs source initialDestination with
  | .error _ => tr
  | .ok (finalPath, sourceHash?) =>
    match sourceHash? with
    | none => tr
    | some _ =>
      if (fs finalPath).isSome then
        tr ++ FsEff.statE finalPath :: CalculateSHA256Trace fs finalPath
      else
        tr ++ [FsEff.statE finalPath]

/-! ## Package `pathgen` (src/unnamed/part_001, package pathgen) -/

/-- The fields of a Go `time.Time` that the path generator reads
(`Year`, `Month` as 1–12, `Day`, `Hour`, `Minute`, `Second`,
`Nanosecond`; a valid Go time has `nanosecond < 1e9`). -/
structure GoTime where
  year : Nat
  month : Nat
  day : Nat
  hour : Nat
  minute : Nat
  second : Nat
  nanosecond : Nat
  deriving DecidableEq, Repr

/-- `config.ImageMetadata` (the `RawMetadata` payload is opaque to the
path generator and omitted). -/
structure ImageMetadata where
  dateTime : Option GoTime
  make : String
  model : String
  deriving DecidableEq, Repr

/-- `pathgen.PathGenerator`. -/
structure PathGenerator where
  precision : Nat
  oldNaming : Bool
  deriving DecidableEq, Repr

/-- `generateCameraPart`: `Make-Model`, `MakeModel` (old naming),
`Make`, `Model`, or `Unknown`. -/
def generateCameraPart (pg : PathGenerator) (md : ImageMetadata) : String :=
  if md.make ≠ "" ∧ md.model ≠ "" then
    if pg.oldNaming then md.make ++ md.model
    else md.make ++ "-" ++ md.model
  else if md.make ≠ "" then md.make
  else if md.model ≠ "" then md.model
  else "Unknown"

/-- `generateSubsecPart`: `Precision`-length zero string when the time
is absent or has zero nanoseconds; otherwise the `%06d` microseconds,
returned whole when `Precision > 6` and truncated to `Precision`
otherwise.  (`microseconds < 1e6` for a valid Go time, so the `%06d`
string has exactly 6 digits.) -/
def generateSubsecPart (pg : PathGenerator) (md : ImageMetadata) : String :=
  match md.dateTime with
  | none => repeatChar '0' pg.precision
  | some dt =>
    if dt.nanosecond = 0 then repeatChar '0' pg.precision
    else
      let microseconds := dt.nanosecond / 1000
      let fullSubsec := padNum 6 microseconds
      if pg.precision > 6 then fullSubsec
      else String.mk (fullSubsec.data.take pg.precision)

/-- `GenerateFilename`: `YYYYMMDD-HHMMSS.subsec_Make-Model[_N].ext`,
or `unknown_Make-Model[_N].ext` without a timestamp; the extension is
lower-cased. -/
def GenerateFilename (pg : PathGenerator) (md : ImageMetadata)
    (extension : String) (increment : Nat) : String :=
  let camera := generateCameraPart pg md
  let incrementStr := if increment > 0 then "_" ++ sprintfD increment else ""
  let ext := strToLower extension
  match md.dateTime with
  | none => "unknown_" ++ camera ++ incrementStr ++ "." ++ ext
  | some dt =>
    let datePart := padNum 4 dt.year ++ padNum 2 dt.month ++ padNum 2 dt.day
      ++ "-" ++ padNum 2 dt.hour ++ padNum 2 dt.minute ++ padNum 2 dt.second
    let subsec := generateSubsecPart pg md
    datePart ++ "." ++ subsec ++ "_" ++ camera ++ incrementStr ++ "." ++ ext

/-- `GenerateDirectory`: `baseDir/YYYY/MM/YYYY-MM-DD`, or
`baseDir/unknown` without a timestamp. -/
def GenerateDirectory (_pg : PathGenerator) (md : ImageMetadata)
    (baseDir : String) : String :=
  match md.dateTime with
  | none => filepathJoin baseDir "unknown"
  | some dt =>
    let year := padNum 4 dt.year
    let month := padNum 2 dt.month
    let day := padNum 2 dt.day
    let yearMonth := filepathJoin year month
    let fullDate := year ++ "-" ++ month ++ "-" ++ day
    filepathJoin (filepathJoin baseDir yearMonth) fullDate

/-- `GeneratePath`: directory joined with filename. -/
def GeneratePath (pg : PathGenerator) (md : ImageMetadata)
    (baseDir extension : String) (increment : Nat) : String :=
  filepathJoin (GenerateDirectory pg md baseDir)
    (GenerateFilename pg md extension increment)

/-! ## Package `rename` — `SafeCopy`, `SafeMove`, `Perform`
(src/internal/rename/rename.go)

The transfer primitives change the filesystem, so they are embedded as
state transformers over a state that also records which directories
exist.  Failures that depend on the physical environment (short writes,
permission errors, cross-device renames) are driven by explicit fault
parameters, so that the error-path guarantees are provable for every
failure pattern rather than only for the always-succeeding run.
`os.CreateTemp`'s random fresh name is modelled by a name parameter;
theorems assume it is unused, which is exactly what `os.CreateTemp`
guarantees. -/

/-- Filesystem plus directory namespace. -/
structure FsState where
  files : Fs
  dirs : String → Bool

/-- Point update: create or overwrite the file at `k`. -/
def setFile (f : Fs) (k : String) (v : FileData) : Fs :=
  fun p => if p = k then some v else f p

/-- Point removal of the file at `k`. -/
def removeFile (f : Fs) (k : String) : Fs :=
  fun p => if p = k then none else f p

/-- `os.MkdirAll`: ensure the directory exists (its parents are below
the granularity of this model). -/
def mkdirAll (st : FsState) (d : String) : FsState :=
  { st with dirs := fun p => if p = d then true else st.dirs p }

/-- Environment-driven failures of the fallible steps of `SafeCopy`, in
source order: `os.ReadFile`, `os.CreateTemp`, `tmpFile.Write`,
`tmpFile.Close`, `os.Stat`, `os.Chmod`, `os.Rename`. -/
structure CopyFaults where
  readFails : Bool
  createTempFails : Bool
  writeFails : Bool
  closeFails : Bool
  statFails : Bool
  chmodFails : Bool
  renameFails : Bool
  deriving DecidableEq, Repr

/-- The always-succeeding environment. -/
def CopyFaults.none : CopyFaults := ⟨false, false, false, false, false, false, false⟩

/-- The temp path `os.CreateTemp(destDir, ".tmp-*")` chooses: a fresh
name inside the destination directory. -/
def tmpPathOf (dst tmpName : String) : String :=
  filepathJoin (filepathDir dst) (".tmp-" ++ tmpName)

/-- `SafeCopy(src, dst)`: read the source, write a temp file in the
destination directory, copy the source's permission bits onto it,
rename it onto `dst`; the deferred cleanup removes the temp file on any
failure after its creation.  The source is only ever read. -/
def SafeCopy (flt : CopyFaults) (tmpName : String) (st : FsState)
    (src dst : String) : FsState × Except String Unit :=
  match st.files src with
  | none => (st, .error "failed to read source file")
  | some srcData =>
    if flt.readFails then (st, .error "failed to read source file")
    else
      let destDir := filepathDir dst
      if st.dirs destDir = false ∨ flt.createTempFails then
        (st, .error "failed to create temp file")
      else
        let tmpPath := tmpPathOf dst tmpName
        let st₁ := { st with files := setFile st.files tmpPath ⟨[], 0o600⟩ }
        if flt.writeFails then
          ({ st₁ with files := removeFile st₁.files tmpPath },
            .error "failed to write temp file")
        else
          let st₂ := { st₁ with files := setFile st₁.files tmpPath ⟨srcData.content, 0o600⟩ }
          if flt.closeFails then
            ({ st₂ with files := removeFile st₂.files tmpPath },
              .error "failed to close temp file")
          else if flt.statFails then
            ({ st₂ with files := removeFile st₂.files tmpPath },
              .error "failed to stat source file")
          else if flt.chmodFails then
            ({ st₂ with files := removeFile st₂.files tmpPath },
              .error "failed to set permissions")
          else
            let st₃ := { st₂ with
              files := setFile st₂.files tmpPath ⟨srcData.content, srcData.perm⟩ }
            if flt.renameFails then
              ({ st₃ with files := removeFile st₃.files tmpPath },
                .error "failed to rename temp file")
            else
              ({ st₃ with
                  files := setFile (removeFile st₃.files tmpPath) dst
                    ⟨srcData.content, srcData.perm⟩ },
                .ok ())

/-- How the environment answers the initial `os.Rename` of `SafeMove`:
success, a cross-device `EXDEV` link error, or any other error. -/
inductive RenameOutcome where
  | success
  | exdev
  | otherErr
  deriving DecidableEq, Repr

/-- `SafeMove(src, dst)`: try `os.Rename`; on `EXDEV` fall back to
`SafeCopy` followed by `os.Remove(src)`; any other rename error is
returned without the fallback. -/
def SafeMove (ro : RenameOutcome) (flt : CopyFaults) (tmpName : String)
    (rmFails : Bool) (st : FsState) (src dst : String) :
    FsState × Except String Unit :=
  match ro with
  | .success =>
    match st.files src with
    | none => (st, .error "failed to move file")
    | some srcData =>
      ({ st with files := setFile (removeFile st.files src) dst srcData }, .ok ())
  | .exdev =>
    match SafeCopy flt tmpName st src dst with
    | (st', .error e) => (st', .error e)
    | (st', .ok _) =>
      if rmFails then (st', .error "failed to remove source after copy")
      else ({ st' with files := removeFile st'.files src }, .ok ())
  | .otherErr => (st, .error "failed to move file")

/-- The pipeline's copy step: `Perform` creates the destination
directory (`os.MkdirAll(ir.destinationDir, 0755)`) and then calls
`SafeCopy`. -/
def performCopy (flt : CopyFaults) (tmpName : String) (st : FsState)
    (src dst : String) : FsState × Except String Unit :=
  SafeCopy flt tmpName (mkdirAll st (filepathDir dst)) src dst

/-- `ImageRename.Perform` for a file that `ParseMetadata` already
classified as non-duplicate: dry-run returns immediately; otherwise the
destination directory is created, and if the previously resolved
destination is now occupied the collision resolver is re-run once —
a duplicate verdict skips the transfer, any other verdict redirects it.
The third component records the `(source, target)` of the transfer that
was attempted, `none` when no copy or move was attempted. -/
def Perform (dryRun move : Bool) (hash : List Nat → String)
    (ro : RenameOutcome) (flt : CopyFaults) (tmpName : String) (rmFails : Bool)
    (st : FsState) (source destination : String) :
    FsState × Except String Unit × Option (String × String) :=
  if dryRun then (st, .ok (), none)
  else
    let st₀ := mkdirAll st (filepathDir destination)
    if (st₀.files destination).isSome then
      match CheckAndResolve hash st₀.files source destination with
      | .error e => (st₀, .error ("failed to recheck duplicates: " ++ e), none)
      | .ok (finalDestination, isDup) =>
        if isDup then (st₀, .ok (), none)
        else
          let st₁ := mkdirAll st₀ (filepathDir finalDestination)
          let res :=
            if move then SafeMove ro flt tmpName rmFails st₁ source finalDestination
            else SafeCopy flt tmpName st₁ source finalDestination
          (res.1, res.2, some (source, finalDestination))
    else
      let res :=
        if move then SafeMove ro flt tmpName rmFails st₀ source destination
        else SafeCopy flt tmpName st₀ source destination
      (res.1, res.2, some (source, destination))

/-! ## Concrete fixtures used by the witness theorems -/

/-- A concrete stand-in for SHA-256 in witnesses: the decimal rendering
of the first byte (collision-free on the contents the fixtures use). -/
def demoHash : List Nat → String := fun c => sprintfD (c.headD 0)

/-- Two files with byte-identical content. -/
def fsDup : Fs := fun p =>
  if p = "a.jpg" then some ⟨[3], 420⟩
  else if p = "b.jpg" then some ⟨[3], 420⟩
  else none

/-- A source and a destination occupant with differing content; the
first increment slot is free. -/
def fsTwo : Fs := fun p =>
  if p = "s.jpg" then some ⟨[2], 420⟩
  else if p = "d.jpg" then some ⟨[0], 420⟩
  else none

/-- A destination occupant whose own bytes differ from the source, but
whose `_original` sidecar matches the source. -/
def fsSide : Fs := fun p =>
  if p = "s.jpg" then some ⟨[5], 420⟩
  else if p = "d.jpg" then some ⟨[9], 420⟩
  else if p = "d.jpg_original" then some ⟨[5], 420⟩
  else none

/-- A filesystem where `d.jpg` and every `d_N.jpg` hold content hashing
differently from `s.jpg`: every probe slot is busy. -/
def fsSaturated : Fs := fun p =>
  if p = "s.jpg" then some ⟨[2], 420⟩
  else if p = "d.jpg" then some ⟨[0], 420⟩
  else if "d_".data.isPrefixOf p.data && ".jpg".data.isSuffixOf p.data then
    some ⟨[1], 420⟩
  else none

/-- One source file and no destination directory yet. -/
def stCopy : FsState :=
  ⟨fun p => if p = "src.jpg" then some ⟨[7], 420⟩ else none, fun _ => false⟩

/-- One source file, destination directory present. -/
def stMove : FsState :=
  ⟨fun p => if p = "m.jpg" then some ⟨[9], 420⟩ else none, fun _ => true⟩

/-- A source and an identical occupant of its already-resolved
destination, as seen by the pre-transfer recheck. -/
def stPerf : FsState :=
  ⟨fun p =>
      if p = "s.jpg" then some ⟨[3], 420⟩
      else if p = "d.jpg" then some ⟨[3], 420⟩
      else none,
    fun _ => true⟩

/-- Metadata with zero sub-second part, for the C7 counterexample. -/
def mdZeroSubsec : ImageMetadata :=
  ⟨some ⟨2024, 1, 15, 12, 30, 45, 0⟩, "Canon", "EOS5d"⟩

/-- Metadata with the capture time, make and model of the C8 scenario,
worded exactly as the claim words it (model `EOS 5D`). -/
def mdCanon : ImageMetadata :=
  ⟨some ⟨2024, 1, 15, 12, 30, 45, 123456000⟩, "Canon", "EOS 5D"⟩

/-! ## Helper lemmas about the duplicate detector -/

lemma calculateSHA256_no_sidecar (hash : List Nat → String) (fs : Fs) (p : String)
    (fd : FileData) (hno : fs (p ++ "_original") = none) (hp : fs p = some fd) :
    CalculateSHA256 hash fs p = .ok (hash fd.content) := by
  unfold CalculateSHA256
  simp [hno, hp]

lemma calculateSHA256_sidecar (hash : List Nat → String) (fs : Fs) (p : String)
    (fdO : FileData) (ho : fs (p ++ "_original") = some fdO) :
    CalculateSHA256 hash fs p = .ok (hash fdO.content) := by
  unfold CalculateSHA256
  simp [ho]

lemma calculateSHA256_ok_of_isSome (hash : List Nat → String) (fs : Fs) (p : String)
    (h : (fs p).isSome = true) :
    ∃ d, CalculateSHA256 hash fs p = .ok d := by
  unfold CalculateSHA256
  rcases hs : fs (p ++ "_original") with _ | fdO
  · rcases hp : fs p with _ | fd
    · rw [hp] at h; cases h
    · exact ⟨hash fd.content, by simp [hs, hp]⟩
  · exact ⟨hash fdO.content, by simp [hs]⟩

lemma resolveLoop_reaches (hash : List Nat → String) (fs : Fs) (h : String)
    (p : String) (N : Nat) :
    ∀ fuel inc, inc ≤ N → N ≤ inc + fuel →
    (∀ k, inc ≤ k → k < N →
      (fs (addIncrement p k)).isSome = true ∧
        CalculateSHA256 hash fs (addIncrement p k) ≠ .ok h) →
    (fs (addIncrement p N) = none ∨
      ((fs (addIncrement p N)).isSome = true ∧
        CalculateSHA256 hash fs (addIncrement p N) = .ok h)) →
    resolveLoop hash fs h p inc fuel = .ok (addIncrement p N, some h) := by
  intro fuel
  induction fuel with
  | zero =>
    intro inc h1 h2 _hbusy hslot
    have hiN : inc = N := by omega
    subst hiN
    rcases hslot with hfree | ⟨hocc, hmatch⟩
    · unfold resolveLoop
      simp [hfree]
    · unfold resolveLoop
      have hne : fs (addIncrement p inc) ≠ none := by
        intro hc; rw [hc] at hocc; cases hocc
      simp [hne, hmatch]
  | succ fuel ih =>
    intro inc h1 h2 hbusy hslot
    by_cases hiN : inc = N
    · subst hiN
      rcases hslot with hfree | ⟨hocc, hmatch⟩
      · unfold resolveLoop
        simp [hfree]
      · unfold resolveLoop
        have hne : fs (addIncrement p inc) ≠ none := by
          intro hc; rw [hc] at hocc; cases hocc
        simp [hne, hmatch]
    · have hlt : inc < N := by omega
      obtain ⟨hocc, hneq⟩ := hbusy inc le_rfl hlt
      obtain ⟨d, hd⟩ := calculateSHA256_ok_of_isSome hash fs _ hocc
      have hne : fs (addIncrement p inc) ≠ none := by
        intro hc; rw [hc] at hocc; cases hocc
      have hdneq : h ≠ d := by
        intro hc; exact hneq (by rw [hc]; exact hd)
      unfold resolveLoop
      simp only [hne, hd, if_neg hdneq]
      exact ih (inc + 1) (by omega) (by omega)
        (fun k hk1 hk2 => hbusy k (by omega) hk2) hslot

lemma resolveLoop_limit (hash : List Nat → String) (fs : Fs) (h : String)
    (p : String) :
    ∀ fuel inc,
    (∀ k, inc ≤ k → k ≤ inc + fuel →
      (fs (addIncrement p k)).isSome = true ∧
        CalculateSHA256 hash fs (addIncrement p k) ≠ .ok h) →
    resolveLoop hash fs h p inc fuel = .error ("too many collisions for " ++ p) := by
  intro fuel
  induction fuel with
  | zero =>
    intro inc hbusy
    obtain ⟨hocc, hneq⟩ := hbusy inc le_rfl (by omega)
    obtain ⟨d, hd⟩ := calculateSHA256_ok_of_isSome hash fs _ hocc
    have hne : fs (addIncrement p inc) ≠ none := by
      intro hc; rw [hc] at hocc; cases hocc
    have hdneq : h ≠ d := by
      intro hc; exact hneq (by rw [hc]; exact hd)
    unfold resolveLoop
    simp [hne, hd, hdneq]
  | succ fuel ih =>
    intro inc hbusy
    obtain ⟨hocc, hneq⟩ := hbusy inc le_rfl (by omega)
    obtain ⟨d, hd⟩ := calculateSHA256_ok_of_isSome hash fs _ hocc
    have hne : fs (addIncrement p inc) ≠ none := by
      intro hc; rw [hc] at hocc; cases hocc
    have hdneq : h ≠ d := by
      intro hc; exact hneq (by rw [hc]; exact hd)
    unfold resolveLoop
    simp only [if_neg hne, hd, if_neg hdneq]
    exact ih (inc + 1) (fun k hk1 hk2 => hbusy k (by omega) (by omega))

lemma resolveCollision_dup (hash : List Nat → String) (fs : Fs)
    (source dest h : String) (fd : FileData)
    (hocc : fs dest = some fd)
    (hs : CalculateSHA256 hash fs source = .ok h)
    (hd : CalculateSHA256 hash fs dest = .ok h) :
    ResolveCollision hash fs source dest = .ok (dest, some h) := by
  unfold ResolveCollision
  simp [hocc, hs, hd]

lemma resolveCollision_probe (hash : List Nat → String) (fs : Fs)
    (source dest h h0 : String) (fd : FileData)
    (hocc : fs dest = some fd)
    (hs : CalculateSHA256 hash fs source = .ok h)
    (hd : CalculateSHA256 hash fs dest = .ok h0)
    (hne : h ≠ h0) :
    ResolveCollision hash fs source dest = resolveLoop hash fs h dest 1 999 := by
  unfold ResolveCollision
  simp [hocc, hs, hd, hne]

/-! ## Claims C1, C2, C5, C10 — duplicate detection and collision probing -/

/-- Claim C1: when source and destination occupant have byte-identical
content (ordinary files, no `_original` sidecar overriding either
hash), `CheckAndResolve` returns the occupied destination with the
duplicate flag set, and `processFile` then skips the transfer entirely
(it returns before `Perform` is ever reached). -/
theorem c1_duplicate_detected_and_skipped (hash : List Nat → String) (fs : Fs)
    (source dest : String) (fdB fdA : FileData)
    (hsrc : fs source = some fdB) (hdst : fs dest = some fdA)
    (hco : fdB.content = fdA.content)
    (hso : fs (source ++ "_original") = none)
    (hdo : fs (dest ++ "_original") = none) :
    CheckAndResolve hash fs source dest = .ok (dest, true)
    ∧ processFileDecision hash fs source dest = .skippedDuplicate := by
  have hs := calculateSHA256_no_sidecar hash fs source fdB hso hsrc
  have hd := calculateSHA256_no_sidecar hash fs dest fdA hdo hdst
  rw [hco] at hs
  have hres := resolveCollision_dup hash fs source dest (hash fdA.content) fdA hdst hs hd
  constructor
  · unfold CheckAndResolve
    rw [hres]
    simp [hdst, hd]
  · unfold processFileDecision CheckAndResolve
    rw [hres]
    simp [hdst, hd]

/-- Witness for C1 at a concrete two-file filesystem. -/
theorem c1_witness :
    (fsDup "b.jpg" = some ⟨[3], 420⟩ ∧ fsDup "a.jpg" = some ⟨[3], 420⟩)
    ∧ (CheckAndResolve demoHash fsDup "b.jpg" "a.jpg" = .ok ("a.jpg", true)
      ∧ processFileDecision demoHash fsDup "b.jpg" "a.jpg" = .skippedDuplicate) :=
  ⟨⟨by decide, by decide⟩,
    c1_duplicate_detected_and_skipped demoHash fsDup "b.jpg" "a.jpg"
      ⟨[3], 420⟩ ⟨[3], 420⟩ (by decide) (by decide) (by decide) (by decide)
      (by decide)⟩

/-- Claim C2: when the initial candidate is occupied by content hashing
differently from the source, resolution returns the first probed slot
`candidate_N` (suffix inserted before the extension by `addIncrement`)
that is either free or whose occupant's hash equals the source's hash;
the duplicate flag is set exactly when that slot is occupied, and a
free resolved slot is distinct from both occupied paths, so neither
file is overwritten. -/
theorem c2_collision_next_slot (hash : List Nat → String) (fs : Fs)
    (source dest h h0 : String) (fdB fdA : FileData) (N : Nat)
    (hsrc : fs source = some fdB) (hdst : fs dest = some fdA)
    (hs : CalculateSHA256 hash fs source = .ok h)
    (hd : CalculateSHA256 hash fs dest = .ok h0)
    (hne : h ≠ h0) (hN1 : 1 ≤ N) (hN : N ≤ 1000)
    (hbusy : ∀ k, 1 ≤ k → k < N →
      (fs (addIncrement dest k)).isSome = true ∧
        CalculateSHA256 hash fs (addIncrement dest k) ≠ .ok h)
    (hslot : fs (addIncrement dest N) = none ∨
      ((fs (addIncrement dest N)).isSome = true ∧
        CalculateSHA256 hash fs (addIncrement dest N) = .ok h)) :
    CheckAndResolve hash fs source dest
      = .ok (addIncrement dest N, (fs (addIncrement dest N)).isSome)
    ∧ (fs (addIncrement dest N) = none →
        addIncrement dest N ≠ dest ∧ addIncrement dest N ≠ source) := by
  have hloop := resolveLoop_reaches hash fs h dest N 999 1 hN1 (by omega) hbusy hslot
  have hres : ResolveCollision hash fs source dest
      = .ok (addIncrement dest N, some h) := by
    rw [resolveCollision_probe hash fs source dest h h0 fdA hdst hs hd hne, hloop]
  refine ⟨?_, ?_⟩
  · unfold CheckAndResolve
    rw [hres]
    rcases hslot with hfree | ⟨hocc, hmatch⟩
    · simp [hfree]
    · simp [hocc, hmatch]
  · intro hfree
    constructor
    · intro hc; rw [hc, hdst] at hfree; cases hfree
    · intro hc; rw [hc, hsrc] at hfree; cases hfree

/-- Witness for C2: differing contents, slot 1 free, result `d_1.jpg`. -/
theorem c2_witness :
    (fsTwo "d.jpg" = some ⟨[0], 420⟩ ∧ fsTwo (addIncrement "d.jpg" 1) = none)
    ∧ (CheckAndResolve demoHash fsTwo "s.jpg" "d.jpg"
        = .ok (addIncrement "d.jpg" 1, (fsTwo (addIncrement "d.jpg" 1)).isSome)
      ∧ (fsTwo (addIncrement "d.jpg" 1) = none →
          addIncrement "d.jpg" 1 ≠ "d.jpg" ∧ addIncrement "d.jpg" 1 ≠ "s.jpg")) :=
  ⟨⟨by decide, by decide⟩,
    c2_collision_next_slot demoHash fsTwo "s.jpg" "d.jpg" "2" "0"
      ⟨[2], 420⟩ ⟨[0], 420⟩ 1 (by decide) (by decide) (by decide) (by decide)
      (by decide) (by omega) (by omega)
      (fun k hk1 hk2 => absurd hk2 (by omega))
      (Or.inl (by decide))⟩

/-- Claim C5: when the initial candidate and every probed slot
`candidate_1 … candidate_1000` are occupied by content hashing
differently from the source, `ResolveCollision` terminates with the
collision-limit error (`too many collisions for …`) instead of probing
further, and `CheckAndResolve` surfaces the same error. -/
theorem c5_collision_limit (hash : List Nat → String) (fs : Fs)
    (source dest h h0 : String) (fdA : FileData)
    (hdst : fs dest = some fdA)
    (hs : CalculateSHA256 hash fs source = .ok h)
    (hd : CalculateSHA256 hash fs dest = .ok h0)
    (hne : h ≠ h0)
    (hbusy : ∀ k, k < 1000 →
      (fs (addIncrement dest (k + 1))).isSome = true ∧
        CalculateSHA256 hash fs (addIncrement dest (k + 1)) ≠ .ok h) :
    ResolveCollision hash fs source dest
      = .error ("too many collisions for " ++ dest)
    ∧ CheckAndResolve hash fs source dest
      = .error ("too many collisions for " ++ dest) := by
  have hloop := resolveLoop_limit hash fs h dest 999 1
    (fun k hk1 hk2 => by
      have := hbusy (k - 1) (by omega)
      have hk : k - 1 + 1 = k := by omega
      rw [hk] at this
      exact this)
  have hres : ResolveCollision hash fs source dest
      = .error ("too many collisions for " ++ dest) := by
    rw [resolveCollision_probe hash fs source dest h h0 fdA hdst hs hd hne, hloop]
  exact ⟨hres, by unfold CheckAndResolve; rw [hres]⟩

set_option maxRecDepth 4000 in
/-- Witness for C5: a filesystem with the candidate and all 1000 probe
slots occupied by non-matching content is resolved to the limit error. -/
theorem c5_witness :
    (fsSaturated "d.jpg" = some ⟨[0], 420⟩
      ∧ (∀ k, k < 1000 →
          (fsSaturated (addIncrement "d.jpg" (k + 1))).isSome = true ∧
            CalculateSHA256 demoHash fsSaturated (addIncrement "d.jpg" (k + 1))
              ≠ .ok "2"))
    ∧ ResolveCollision demoHash fsSaturated "s.jpg" "d.jpg"
        = .error ("too many collisions for " ++ "d.jpg") :=
  ⟨⟨by decide, by decide⟩,
    (c5_collision_limit demoHash fsSaturated "s.jpg" "d.jpg" "2" "0" ⟨[0], 420⟩
      (by decide) (by decide) (by decide) (by decide) (by decide)).1⟩

/-- Claim C10: `CalculateSHA256` hashes the `_original` sidecar instead
of the named path whenever the sidecar exists, for destination
occupants probed during collision resolution just as for the source:
an occupant whose own bytes hash differently from the source is still
classified a duplicate when its sidecar's bytes match. -/
theorem c10_sidecar_substitution (hash : List Nat → String) (fs : Fs)
    (source dest : String) (fdS fdD fdO : FileData)
    (hsrc : fs source = some fdS) (hdst : fs dest = some fdD)
    (hso : fs (source ++ "_original") = none)
    (hdo : fs (dest ++ "_original") = some fdO)
    (hmatch : hash fdO.content = hash fdS.content)
    (_hdiff : hash fdD.content ≠ hash fdS.content) :
    CalculateSHA256 hash fs dest = .ok (hash fdO.content)
    ∧ CheckAndResolve hash fs source dest = .ok (dest, true) := by
  have hs := calculateSHA256_no_sidecar hash fs source fdS hso hsrc
  have hd := calculateSHA256_sidecar hash fs dest fdO hdo
  refine ⟨hd, ?_⟩
  rw [hmatch] at hd
  have hres := resolveCollision_dup hash fs source dest (hash fdS.content) fdD hdst hs hd
  unfold CheckAndResolve
  rw [hres]
  simp [hdst, hd]

/-- Witness for C10 at a concrete filesystem with a sidecar next to the
destination occupant. -/
theorem c10_witness :
    (fsSide ("d.jpg" ++ "_original") = some ⟨[5], 420⟩
      ∧ fsSide "d.jpg" = some ⟨[9], 420⟩)
    ∧ (CalculateSHA256 demoHash fsSide "d.jpg" = .ok (demoHash [5])
      ∧ CheckAndResolve demoHash fsSide "s.jpg" "d.jpg" = .ok ("d.jpg", true)) :=
  ⟨⟨by decide, by decide⟩,
    c10_sidecar_substitution demoHash fsSide "s.jpg" "d.jpg"
      ⟨[5], 420⟩ ⟨[9], 420⟩ ⟨[5], 420⟩
      (by decide) (by decide) (by decide) (by decide) (by decide) (by decide)⟩

/-! ## Claim C9 — collision resolution never writes -/

lemma calculateSHA256Trace_read_only (fs : Fs) (p : String) :
    (CalculateSHA256Trace fs p).all FsEff.readOnly = true := by
  unfold CalculateSHA256Trace
  simp [FsEff.readOnly]

lemma resolveLoopTrace_read_only (hash : List Nat → String) (fs : Fs)
    (sourceHash initialPath : String) :
    ∀ fuel increment,
    (resolveLoopTrace hash fs sourceHash initialPath increment fuel).all
      FsEff.readOnly = true := by
  intro fuel
  induction fuel with
  | zero =>
    intro increment
    unfold resolveLoopTrace
    by_cases hcp : fs (addIncrement initialPath increment) = none
    · simp [hcp, FsEff.readOnly]
    · rcases hc : CalculateSHA256 hash fs (addIncrement initialPath increment) with e | dh
      · simp [hcp, hc, calculateSHA256Trace_read_only, FsEff.readOnly]
      · by_cases hs : sourceHash = dh <;>
          simp [hcp, hc, hs, calculateSHA256Trace_read_only, FsEff.readOnly]
  | succ fuel ih =>
    intro increment
    unfold resolveLoopTrace
    by_cases hcp : fs (addIncrement initialPath increment) = none
    · simp [hcp, FsEff.readOnly]
    · rcases hc : CalculateSHA256 hash fs (addIncrement initialPath increment) with e | dh
      · simp [hcp, hc, calculateSHA256Trace_read_only, FsEff.readOnly]
      · by_cases hs : sourceHash = dh <;>
          simp [hcp, hc, hs, calculateSHA256Trace_read_only, FsEff.readOnly, ih]

lemma resolveCollisionTrace_read_only (hash : List Nat → String) (fs : Fs)
    (source initialPath : String) :
    (ResolveCollisionTrace hash fs source initialPath).all FsEff.readOnly = true := by
  unfold ResolveCollisionTrace
  by_cases hcp : fs initialPath = none
  · simp [hcp, FsEff.readOnly]
  · rcases hc : CalculateSHA256 hash fs source with e | sourceHash
    · simp [hcp, hc, calculateSHA256Trace_read_only, FsEff.readOnly]
    · rcases hd : CalculateSHA256 hash fs initialPath with e | destHash
      · simp [hcp, hc, hd, calculateSHA256Trace_read_only, FsEff.readOnly]
      · by_cases hs : sourceHash = destHash <;>
          simp [hcp, hc, hd, hs, calculateSHA256Trace_read_only, FsEff.readOnly,
            resolveLoopTrace_read_only]

/-- Claim C9: for every hash oracle, filesystem, source and candidate,
every filesystem primitive `CheckAndResolve` (and through it
`ResolveCollision` and `CalculateSHA256`) invokes is a stat or an
open-and-read: collision resolution never creates, modifies or deletes
a file. -/
theorem c9_resolver_read_only (hash : List Nat → String) (fs : Fs)
    (source initialDestination : String) :
    (CheckAndResolveTrace hash fs source initialDestination).all
      FsEff.readOnly = true := by
  unfold CheckAndResolveTrace
  rcases hr : ResolveCollision hash fs source initialDestination with e | pr
  · simp [hr, resolveCollisionTrace_read_only]
  · rcases pr with ⟨finalPath, _ | sh⟩
    · simp [hr, resolveCollisionTrace_read_only]
    · by_cases hocc : (fs finalPath).isSome = true <;>
        simp [hr, hocc, resolveCollisionTrace_read_only,
          calculateSHA256Trace_read_only, FsEff.readOnly]

/-! ## Claims C7 and C8 — the path generator -/

lemma digitsAux_length_le :
    ∀ fuel n k, n < fuel → n < 10 ^ k → 1 ≤ k →
      (digitsAux fuel n).length ≤ k := by
  intro fuel
  induction fuel with
  | zero => intro n k h1 _ _; omega
  | succ fuel ih =>
    intro n k h1 h2 h3
    unfold digitsAux
    by_cases hn : n < 10
    · simpa [hn] using h3
    · have hk2 : 2 ≤ k := by
        by_contra hc
        have : k = 1 := by omega
        rw [this] at h2
        simp at h2
        omega
      have hdiv : n / 10 < 10 ^ (k - 1) := by
        rw [Nat.div_lt_iff_lt_mul (by omega)]
        calc n < 10 ^ k := h2
        _ = 10 ^ (k - 1) * 10 := by
              rw [← pow_succ]
              congr 1
              omega
      have hfuel : n / 10 < fuel := by
        have : n / 10 < n := Nat.div_lt_self (by omega) (by omega)
        omega
      have := ih (n / 10) (k - 1) hfuel hdiv (by omega)
      simp only [hn, if_false]
      simp only [List.length_cons]
      omega

lemma sprintfD_length_le (n k : Nat) (h : n < 10 ^ k) (hk : 1 ≤ k) :
    (sprintfD n).length ≤ k := by
  unfold sprintfD
  simpa using digitsAux_length_le (n + 1) n k (by omega) h hk

lemma padNum_length (w n : Nat) (h : (sprintfD n).length ≤ w) :
    (padNum w n).length = w := by
  unfold padNum
  rw [String.length_append]
  have hmk : (String.mk (List.replicate (w - (sprintfD n).length) '0')).length
      = w - (sprintfD n).length := by
    show (List.replicate (w - (sprintfD n).length) '0').length = _
    simp
  omega

lemma padNum_data_length (w n : Nat) (h : (sprintfD n).length ≤ w) :
    (padNum w n).data.length = w := padNum_length w n h

lemma generateCameraPart_precision_irrelevant (p q : Nat) (b : Bool)
    (md : ImageMetadata) :
    generateCameraPart ⟨p, b⟩ md = generateCameraPart ⟨q, b⟩ md := by
  simp [generateCameraPart]

lemma generateSubsecPart_clamp (p : Nat) (b : Bool) (md : ImageMetadata)
    (dt : GoTime) (hdt : md.dateTime = some dt)
    (hval : dt.nanosecond < 1000000000) (hp : 6 < p)
    (hns : dt.nanosecond ≠ 0) :
    generateSubsecPart ⟨p, b⟩ md = generateSubsecPart ⟨6, b⟩ md := by
  unfold generateSubsecPart
  rw [hdt]
  simp only [hns, if_false]
  have hmu : dt.nanosecond / 1000 < 10 ^ 6 := by
    rw [Nat.div_lt_iff_lt_mul (by omega)]
    omega
  have hlen : (padNum 6 (dt.nanosecond / 1000)).data.length = 6 :=
    padNum_data_length 6 _ (sprintfD_length_le _ 6 hmu (by omega))
  have h6 : ¬ (6 > 6) := by omega
  simp only [hp, if_true, h6, if_false, gt_iff_lt, lt_self_iff_false]
  rw [List.take_of_length_le (by omega : (padNum 6 (dt.nanosecond / 1000)).data.length ≤ 6)]

/-- Counterexample to C7 as stated: with a capture time whose
nanosecond field is zero, precision 8 produces an 8-zero fractional
segment, not the 6-zero segment of precision 6 — the claim's clamp does
not hold for the zero-fill branch of `generateSubsecPart`. -/
theorem c7_counterexample :
    GenerateFilename ⟨8, false⟩ mdZeroSubsec "jpg" 0
      ≠ GenerateFilename ⟨6, false⟩ mdZeroSubsec "jpg" 0 := by decide

/-- Claim C7 amended: for requested precision `p > 6` and a valid Go
capture time, the clamp to 6 digits holds whenever the time has a
nonzero nanosecond field (the whole filename then coincides with the
`p = 6` filename); when the nanosecond field is zero the zero-fill has
length `p`, unclamped; and `p = 0` yields an empty fractional segment. -/
theorem c7_subsec_clamp_amended (p : Nat) (b : Bool) (md : ImageMetadata)
    (dt : GoTime) (ext : String) (inc : Nat)
    (hdt : md.dateTime = some dt) (hval : dt.nanosecond < 1000000000)
    (hp : 6 < p) :
    (dt.nanosecond ≠ 0 →
      GenerateFilename ⟨p, b⟩ md ext inc = GenerateFilename ⟨6, b⟩ md ext inc)
    ∧ (dt.nanosecond = 0 → generateSubsecPart ⟨p, b⟩ md = repeatChar '0' p)
    ∧ generateSubsecPart ⟨0, b⟩ md = "" := by
  refine ⟨?_, ?_, ?_⟩
  · intro hns
    have hsub := generateSubsecPart_clamp p b md dt hdt hval hp hns
    have hcam := generateCameraPart_precision_irrelevant p 6 b md
    unfold GenerateFilename
    rw [hdt, hsub, hcam]
  · intro hz
    unfold generateSubsecPart
    rw [hdt]
    simp [hz]
  · unfold generateSubsecPart
    rw [hdt]
    by_cases hz : dt.nanosecond = 0
    · simp [hz, repeatChar]
    · simp [hz, repeatChar]

/-- Witness for the amended C7 at precision 8 on the C8 scenario time. -/
theorem c7_witness :
    (6 < 8 ∧ mdCanon.dateTime = some ⟨2024, 1, 15, 12, 30, 45, 123456000⟩)
    ∧ GenerateFilename ⟨8, false⟩ mdCanon "jpg" 0
        = GenerateFilename ⟨6, false⟩ mdCanon "jpg" 0 :=
  ⟨⟨by omega, by decide⟩,
    (c7_subsec_clamp_amended 8 false mdCanon ⟨2024, 1, 15, 12, 30, 45, 123456000⟩
      "jpg" 0 (by decide) (by decide) (by omega)).1 (by decide)⟩

/-- Counterexample to C8 as stated: with make `Canon` and model
`EOS 5D`, the path builder does not produce
`…_Canon-EOS5D.jpg` — it preserves the space of the model string. -/
theorem c8_counterexample :
    GeneratePath ⟨6, false⟩ mdCanon "" "jpg" 0
      ≠ "2024/01/2024-01-15/20240115-123045.123456_Canon-EOS5D.jpg" := by decide

/-- Claim C8 amended: the scenario's actual output keeps the model
string verbatim (`Canon-EOS 5D`); the directory for the timestamp is
`2024/01/2024-01-15` as claimed, and the extension is lower-cased
(`JPG` and `jpg` give the same filename). -/
theorem c8_path_scenario_amended :
    GeneratePath ⟨6, false⟩ mdCanon "" "jpg" 0
      = "2024/01/2024-01-15/20240115-123045.123456_Canon-EOS 5D.jpg"
    ∧ GenerateDirectory ⟨6, false⟩ mdCanon "" = "2024/01/2024-01-15"
    ∧ GenerateFilename ⟨6, false⟩ mdCanon "JPG" 0
        = GenerateFilename ⟨6, false⟩ mdCanon "jpg" 0 :=
  ⟨by decide, by decide, by decide⟩

/-! ## Helper lemmas about the file-transfer primitives -/

lemma mkdirAll_files (st : FsState) (d : String) :
    (mkdirAll st d).files = st.files := rfl

lemma mkdirAll_dirs_self (st : FsState) (d : String) :
    (mkdirAll st d).dirs d = true := by
  simp [mkdirAll]

lemma safeCopy_dirs (flt : CopyFaults) (tmpName : String) (st : FsState)
    (src dst : String) :
    (SafeCopy flt tmpName st src dst).1.dirs = st.dirs := by
  unfold SafeCopy
  cases hs : st.files src
  · rfl
  · simp only [hs]
    split_ifs <;> rfl

lemma safeCopy_files_src (flt : CopyFaults) (tmpName : String) (st : FsState)
    (src dst : String) (srcData : FileData)
    (hsrc : st.files src = some srcData)
    (hfresh : st.files (tmpPathOf dst tmpName) = none) :
    (SafeCopy flt tmpName st src dst).1.files src = st.files src := by
  have hne : src ≠ tmpPathOf dst tmpName := by
    intro hc; rw [hc, hfresh] at hsrc; cases hsrc
  unfold SafeCopy
  rw [hsrc]
  dsimp only
  split_ifs <;> simp [setFile, removeFile, hne, hsrc]

lemma safeCopy_ok_dst (flt : CopyFaults) (tmpName : String) (st : FsState)
    (src dst : String) (srcData : FileData)
    (hsrc : st.files src = some srcData)
    (hok : (SafeCopy flt tmpName st src dst).2 = .ok ()) :
    (SafeCopy flt tmpName st src dst).1.files dst
      = some ⟨srcData.content, srcData.perm⟩ := by
  unfold SafeCopy at hok ⊢
  rw [hsrc] at hok ⊢
  dsimp only at hok ⊢
  split_ifs at hok ⊢
  simp_all [setFile, removeFile]

lemma safeCopy_ok_tmp_gone (flt : CopyFaults) (tmpName : String) (st : FsState)
    (src dst : String) (srcData : FileData)
    (hsrc : st.files src = some srcData)
    (hok : (SafeCopy flt tmpName st src dst).2 = .ok ())
    (hnd : tmpPathOf dst tmpName ≠ dst) :
    (SafeCopy flt tmpName st src dst).1.files (tmpPathOf dst tmpName) = none := by
  unfold SafeCopy at hok ⊢
  rw [hsrc] at hok ⊢
  dsimp only at hok ⊢
  split_ifs at hok ⊢
  simp_all [setFile, removeFile]

lemma safeCopy_err_tmp_gone (flt : CopyFaults) (tmpName : String) (st : FsState)
    (src dst : String) (srcData : FileData)
    (hsrc : st.files src = some srcData)
    (hfresh : st.files (tmpPathOf dst tmpName) = none)
    (herr : (SafeCopy flt tmpName st src dst).2 ≠ .ok ()) :
    (SafeCopy flt tmpName st src dst).1.files (tmpPathOf dst tmpName) = none := by
  unfold SafeCopy at herr ⊢
  rw [hsrc] at herr ⊢
  dsimp only at herr ⊢
  split_ifs at herr ⊢ <;> simp_all [setFile, removeFile]

lemma eraseTmp_eq (st : FsState) (f : Fs) (tmp dst : String)
    (hfresh : st.files tmp = none)
    (hagree : ∀ q, q ≠ tmp → f q = st.files q) :
    removeFile f tmp dst = st.files dst := by
  unfold removeFile
  by_cases hq : dst = tmp
  · rw [if_pos hq, hq, hfresh]
  · rw [if_neg hq]; exact hagree dst hq

lemma safeCopy_err_dst_unchanged (flt : CopyFaults) (tmpName : String)
    (st : FsState) (src dst : String) (srcData : FileData)
    (hsrc : st.files src = some srcData)
    (hfresh : st.files (tmpPathOf dst tmpName) = none)
    (herr : (SafeCopy flt tmpName st src dst).2 ≠ .ok ()) :
    (SafeCopy flt tmpName st src dst).1.files dst = st.files dst := by
  unfold SafeCopy at herr ⊢
  rw [hsrc] at herr ⊢
  dsimp only at herr ⊢
  split_ifs at herr ⊢ <;>
    first
      | rfl
      | exact absurd rfl herr
      | exact eraseTmp_eq st _ (tmpPathOf dst tmpName) dst hfresh
          (by intro q hq; simp [setFile, hq])

/-! ## Claims C3, C4, C6 — file transfer and the pre-transfer recheck -/

/-- Claim C3: the pipeline's copy step (`Perform`'s `os.MkdirAll`
followed by `SafeCopy`, the two symbols the claim draws on) creates the
destination directory, never touches the source entry, on success
installs the source's content and permission bits at `dst` with the
temp file gone, and on any injected failure at any step removes the
temp file and leaves `dst` unchanged. -/
theorem c3_safe_copy_contract (flt : CopyFaults) (tmpName : String) (st : FsState)
    (src dst : String) (srcData : FileData)
    (hsrc : st.files src = some srcData)
    (hfresh : st.files (tmpPathOf dst tmpName) = none) :
    (performCopy flt tmpName st src dst).1.dirs (filepathDir dst) = true
    ∧ (performCopy flt tmpName st src dst).1.files src = st.files src
    ∧ ((performCopy flt tmpName st src dst).2 = .ok () →
        (performCopy flt tmpName st src dst).1.files dst
          = some ⟨srcData.content, srcData.perm⟩
        ∧ (tmpPathOf dst tmpName ≠ dst →
            (performCopy flt tmpName st src dst).1.files (tmpPathOf dst tmpName)
              = none))
    ∧ ((performCopy flt tmpName st src dst).2 ≠ .ok () →
        (performCopy flt tmpName st src dst).1.files (tmpPathOf dst tmpName)
          = none
        ∧ (performCopy flt tmpName st src dst).1.files dst = st.files dst) := by
  refine ⟨?_, ?_, ?_, ?_⟩
  · show (SafeCopy flt tmpName (mkdirAll st (filepathDir dst)) src dst).1.dirs
      (filepathDir dst) = true
    rw [safeCopy_dirs]
    exact mkdirAll_dirs_self st (filepathDir dst)
  · exact safeCopy_files_src flt tmpName (mkdirAll st (filepathDir dst))
      src dst srcData hsrc hfresh
  · intro hok
    exact ⟨safeCopy_ok_dst flt tmpName (mkdirAll st (filepathDir dst))
        src dst srcData hsrc hok,
      fun hnd => safeCopy_ok_tmp_gone flt tmpName (mkdirAll st (filepathDir dst))
        src dst srcData hsrc hok hnd⟩
  · intro herr
    exact ⟨safeCopy_err_tmp_gone flt tmpName (mkdirAll st (filepathDir dst))
        src dst srcData hsrc hfresh herr,
      safeCopy_err_dst_unchanged flt tmpName (mkdirAll st (filepathDir dst))
        src dst srcData hsrc hfresh herr⟩

/-- Witness for C3 on an always-succeeding run from a concrete state. -/
theorem c3_witness :
    (stCopy.files "src.jpg" = some ⟨[7], 420⟩
      ∧ stCopy.files (tmpPathOf "out/dst.jpg" "t0") = none)
    ∧ ((performCopy CopyFaults.none "t0" stCopy "src.jpg" "out/dst.jpg").1.dirs
        (filepathDir "out/dst.jpg") = true
      ∧ (performCopy CopyFaults.none "t0" stCopy "src.jpg" "out/dst.jpg").1.files
          "src.jpg" = stCopy.files "src.jpg"
      ∧ ((performCopy CopyFaults.none "t0" stCopy "src.jpg" "out/dst.jpg").2
            = .ok () →
          (performCopy CopyFaults.none "t0" stCopy "src.jpg" "out/dst.jpg").1.files
            "out/dst.jpg" = some ⟨[7], 420⟩
          ∧ (tmpPathOf "out/dst.jpg" "t0" ≠ "out/dst.jpg" →
              (performCopy CopyFaults.none "t0" stCopy "src.jpg"
                "out/dst.jpg").1.files (tmpPathOf "out/dst.jpg" "t0") = none))
      ∧ ((performCopy CopyFaults.none "t0" stCopy "src.jpg" "out/dst.jpg").2
            ≠ .ok () →
          (performCopy CopyFaults.none "t0" stCopy "src.jpg" "out/dst.jpg").1.files
            (tmpPathOf "out/dst.jpg" "t0") = none
          ∧ (performCopy CopyFaults.none "t0" stCopy "src.jpg"
              "out/dst.jpg").1.files "out/dst.jpg"
            = stCopy.files "out/dst.jpg")) :=
  ⟨⟨by decide, by decide⟩,
    c3_safe_copy_contract CopyFaults.none "t0" stCopy "src.jpg" "out/dst.jpg"
      ⟨[7], 420⟩ (by decide) (by decide)⟩

/-- Claim C4: `SafeMove` tries the rename first; a non-`EXDEV` rename
error is returned as fatal with the state untouched (no fallback); a
successful rename moves the entry; under `EXDEV` it falls back to
`SafeCopy` + `os.Remove(src)` — if the fallback copy fails the source
entry is exactly as before, and if it succeeds the destination holds
the source's content and permissions and the source is gone. -/
theorem c4_safe_move_contract (ro : RenameOutcome) (flt : CopyFaults)
    (tmpName : String) (rmFails : Bool) (st : FsState) (src dst : String)
    (srcData : FileData)
    (hsrc : st.files src = some srcData)
    (hfresh : st.files (tmpPathOf dst tmpName) = none) :
    (ro = .otherErr →
      SafeMove ro flt tmpName rmFails st src dst
        = (st, .error "failed to move file"))
    ∧ (ro = .success →
      (SafeMove ro flt tmpName rmFails st src dst).2 = .ok ()
      ∧ (SafeMove ro flt tmpName rmFails st src dst).1.files dst = some srcData
      ∧ (dst ≠ src →
          (SafeMove ro flt tmpName rmFails st src dst).1.files src = none))
    ∧ (ro = .exdev →
      ((SafeCopy flt tmpName st src dst).2 ≠ .ok () →
        (SafeMove ro flt tmpName rmFails st src dst).2 ≠ .ok ()
        ∧ (SafeMove ro flt tmpName rmFails st src dst).1.files src
            = some srcData)
      ∧ ((SafeCopy flt tmpName st src dst).2 = .ok () → rmFails = false →
        (SafeMove ro flt tmpName rmFails st src dst).2 = .ok ()
        ∧ (dst ≠ src →
            (SafeMove ro flt tmpName rmFails st src dst).1.files dst
              = some ⟨srcData.content, srcData.perm⟩
            ∧ (SafeMove ro flt tmpName rmFails st src dst).1.files src
              = none))) := by
  refine ⟨?_, ?_, ?_⟩
  · intro h; subst h; rfl
  · intro h
    subst h
    unfold SafeMove
    rw [hsrc]
    refine ⟨rfl, by simp [setFile], ?_⟩
    intro hnd
    simp [setFile, removeFile, hnd, Ne.symm hnd]
  · intro h
    subst h
    constructor
    · intro herr
      rcases hsc : SafeCopy flt tmpName st src dst with ⟨st', r⟩
      rw [hsc] at herr
      cases r with
      | ok u =>
        cases u
        exact absurd rfl herr
      | error e =>
        unfold SafeMove
        rw [hsc]
        refine ⟨by simp, ?_⟩
        have := safeCopy_files_src flt tmpName st src dst srcData hsrc hfresh
        rw [hsc] at this
        simpa [hsrc] using this
    · intro hok hrm
      subst hrm
      rcases hsc : SafeCopy flt tmpName st src dst with ⟨st', r⟩
      rw [hsc] at hok
      cases r with
      | error e => exact absurd hok (by simp)
      | ok u =>
        unfold SafeMove
        rw [hsc]
        refine ⟨rfl, ?_⟩
        intro hnd
        have hdst := safeCopy_ok_dst flt tmpName st src dst srcData hsrc
          (by rw [hsc])
        rw [hsc] at hdst
        constructor
        · simp only [Bool.false_eq_true, if_false, removeFile, if_neg hnd]
          exact hdst
        · simp [removeFile]

/-- Witness for C4 under a simulated cross-device rename failure with a
succeeding fallback copy. -/
theorem c4_witness :
    (stMove.files "m.jpg" = some ⟨[9], 420⟩
      ∧ stMove.files (tmpPathOf "n.jpg" "t1") = none)
    ∧ ((RenameOutcome.exdev = RenameOutcome.otherErr →
        SafeMove .exdev CopyFaults.none "t1" false stMove "m.jpg" "n.jpg"
          = (stMove, .error "failed to move file"))
      ∧ (RenameOutcome.exdev = RenameOutcome.success →
        (SafeMove .exdev CopyFaults.none "t1" false stMove "m.jpg" "n.jpg").2
          = .ok ()
        ∧ (SafeMove .exdev CopyFaults.none "t1" false stMove "m.jpg"
            "n.jpg").1.files "n.jpg" = some ⟨[9], 420⟩
        ∧ ("n.jpg" ≠ "m.jpg" →
            (SafeMove .exdev CopyFaults.none "t1" false stMove "m.jpg"
              "n.jpg").1.files "m.jpg" = none))
      ∧ (RenameOutcome.exdev = RenameOutcome.exdev →
        ((SafeCopy CopyFaults.none "t1" stMove "m.jpg" "n.jpg").2 ≠ .ok () →
          (SafeMove .exdev CopyFaults.none "t1" false stMove "m.jpg"
            "n.jpg").2 ≠ .ok ()
          ∧ (SafeMove .exdev CopyFaults.none "t1" false stMove "m.jpg"
              "n.jpg").1.files "m.jpg" = some ⟨[9], 420⟩)
        ∧ ((SafeCopy CopyFaults.none "t1" stMove "m.jpg" "n.jpg").2 = .ok () →
          false = false →
          (SafeMove .exdev CopyFaults.none "t1" false stMove "m.jpg"
            "n.jpg").2 = .ok ()
          ∧ ("n.jpg" ≠ "m.jpg" →
            (SafeMove .exdev CopyFaults.none "t1" false stMove "m.jpg"
              "n.jpg").1.files "n.jpg" = some ⟨[9], 420⟩
            ∧ (SafeMove .exdev CopyFaults.none "t1" false stMove "m.jpg"
                "n.jpg").1.files "m.jpg" = none)))) :=
  ⟨⟨by decide, by decide⟩,
    c4_safe_move_contract .exdev CopyFaults.none "t1" false stMove "m.jpg"
      "n.jpg" ⟨[9], 420⟩ (by decide) (by decide)⟩

/-- Claim C6: when `Perform` runs (not dry-run) for a non-duplicate
file and the previously resolved destination is now occupied, it
re-runs `CheckAndResolve` from that path exactly once — structurally
there is no retry loop in `Perform`, a single re-resolution feeds the
transfer.  A duplicate verdict ends the call with no copy or move
attempted and the file map untouched (only `MkdirAll` ran); otherwise
the attempted transfer targets exactly the newly resolved path. -/
theorem c6_perform_recheck_once (move : Bool) (hash : List Nat → String)
    (ro : RenameOutcome) (flt : CopyFaults) (tmpName : String) (rmFails : Bool)
    (st : FsState) (source destination p : String) (dup : Bool)
    (hocc : (st.files destination).isSome = true)
    (hres : CheckAndResolve hash st.files source destination = .ok (p, dup)) :
    (dup = true →
      Perform false move hash ro flt tmpName rmFails st source destination
        = (mkdirAll st (filepathDir destination), .ok (), none))
    ∧ (dup = false →
      (Perform false move hash ro flt tmpName rmFails st source destination).2.2
        = some (source, p)) := by
  constructor
  · intro hdup
    subst hdup
    unfold Perform
    simp only [Bool.false_eq_true, if_false, mkdirAll_files, hocc, if_true, hres]
  · intro hdup
    subst hdup
    unfold Perform
    simp only [Bool.false_eq_true, if_false, mkdirAll_files, hocc, if_true, hres]

/-- Witness for C6: the recheck finds an identical occupant at the
resolved destination and `Perform` skips the transfer. -/
theorem c6_witness :
    ((stPerf.files "d.jpg").isSome = true
      ∧ CheckAndResolve demoHash stPerf.files "s.jpg" "d.jpg"
          = .ok ("d.jpg", true))
    ∧ ((true = true →
        Perform false false demoHash .success CopyFaults.none "t2" false stPerf
          "s.jpg" "d.jpg"
          = (mkdirAll stPerf (filepathDir "d.jpg"), .ok (), none))
      ∧ (true = false →
        (Perform false false demoHash .success CopyFaults.none "t2" false stPerf
          "s.jpg" "d.jpg").2.2 = some ("s.jpg", "d.jpg"))) :=
  ⟨⟨by decide, by decide⟩,
    c6_perform_recheck_once false demoHash .success CopyFaults.none "t2" false
      stPerf "s.jpg" "d.jpg" "d.jpg" true (by decide) (by decide)⟩

end SortPics
